import Mathlib

/-!
Verification of the AQI forecaster (Flask app `app.py` plus the offline
training script `train_model.py`).

The forecasting core is the inline loop of `get_sensor_data`
(src/app.py lines 184-215): build a feature vector from live data, then six
times predict next-hour PM2.5, clamp at 0, record a step, and feed the
clamped prediction back as the next input.  Numeric values are embedded as
rationals (the Python floats never hit precision-relevant boundaries in the
properties below); wall-clock instants are embedded as naive local time,
hours since a Monday-midnight epoch plus a minute-of-hour component, which
matches Python naive `datetime` arithmetic with `timedelta(hours=...)`.
-/

namespace AqiForecaster

/-- A wall-clock instant: naive local time, counted in whole hours since a
Monday 00:00 epoch, plus the minute within the hour.  `datetime + timedelta(hours=n)`
is `addHours n`. -/
structure Time where
  absHour : ℕ
  minute : ℕ
  deriving DecidableEq

/-- Python `t.hour` for a naive datetime. -/
def hourOf (t : Time) : ℕ := t.absHour % 24

/-- Python `t.weekday()` (Monday = 0) for a naive datetime over a
Monday-midnight epoch. -/
def weekdayOf (t : Time) : ℕ := (t.absHour / 24) % 7

/-- Python `t + timedelta(hours=n)`. -/
def addHours (n : ℕ) (t : Time) : Time := ⟨t.absHour + n, t.minute⟩

/-- Python `t.strftime("%H:%M")`, kept as the (hour, minute) pair the
string displays. -/
def formatHHMM (t : Time) : ℕ × ℕ := (hourOf t, t.minute)

/-- Python `round(x, 2)` on an exact decimal: round half to even at the
second decimal place.  (The claims never exercise the tie case, but we keep
Python's bankers rounding.) -/
def roundHalfEven (q : ℚ) : ℤ :=
  if q - ⌊q⌋ < 1/2 then ⌊q⌋
  else if 1/2 < q - ⌊q⌋ then ⌊q⌋ + 1
  else if 2 ∣ ⌊q⌋ then ⌊q⌋ else ⌊q⌋ + 1

/-- `round(x, 2)` from src/app.py lines 204, 215 and 219. -/
def round2 (q : ℚ) : ℚ := (roundHalfEven (q * 100) : ℚ) / 100

/-- The `{"level": ..., "color": ...}` dict returned by `get_aqi_level`. -/
structure AQILevel where
  level : String
  color : String
  deriving DecidableEq

/-- `get_aqi_level` (src/app.py lines 33-41): AQI category and color from an
optional PM2.5 value (`None` and negatives map to Unknown). -/
def get_aqi_level (pm25 : Option ℚ) : AQILevel :=
  match pm25 with
  | none => ⟨"Unknown", "#aaaaaa"⟩
  | some v =>
    if v < 0 then ⟨"Unknown", "#aaaaaa"⟩
    else if v ≤ 12 then ⟨"Good", "#00e400"⟩
    else if v ≤ 35.4 then ⟨"Moderate", "#ffff00"⟩
    else if v ≤ 55.4 then ⟨"Unhealthy for Sensitive Groups", "#ff7e00"⟩
    else if v ≤ 150.4 then ⟨"Unhealthy", "#ff0000"⟩
    else if v ≤ 250.4 then ⟨"Very Unhealthy", "#8f3f97"⟩
    else ⟨"Hazardous", "#7e0023"⟩

/-- The seven-column feature row `current_features` (src/app.py lines
189-197); column order `['pm25', 'temperature_2m', 'relative_humidity_2m',
'wind_speed_10m', 'wind_direction_10m', 'hour', 'day_of_week']`. -/
structure FeatureVector where
  pm25 : ℚ
  temperature_2m : ℚ
  relative_humidity_2m : ℚ
  wind_speed_10m : ℚ
  wind_direction_10m : ℚ
  hour : ℕ
  day_of_week : ℕ
  deriving DecidableEq

/-- One element of `forecast_results`: the dict
`{"hour": forecast_time.strftime("%H:%M"), "aqi": round(pred, 2)}`
(src/app.py line 204). -/
structure ForecastStep where
  hour : ℕ × ℕ
  aqi : ℚ
  deriving DecidableEq

/-- The `current` block of the Open-Meteo weather response; each key may be
absent (`weather_data.get(key, default)` in src/app.py lines 191-194). -/
structure Weather where
  temperature_2m : Option ℚ
  relative_humidity_2m : Option ℚ
  wind_speed_10m : Option ℚ
  wind_direction_10m : Option ℚ
  deriving DecidableEq

/-- `feature_data` construction, src/app.py lines 189-195: seed pm25, weather
with fixed defaults (18, 60, 5, 180), and hour/weekday of `now`. -/
def initialFeatures (now : Time) (w : Weather) (pm25_value : ℚ) : FeatureVector :=
  { pm25 := pm25_value
    temperature_2m := w.temperature_2m.getD 18
    relative_humidity_2m := w.relative_humidity_2m.getD 60
    wind_speed_10m := w.wind_speed_10m.getD 5
    wind_direction_10m := w.wind_direction_10m.getD 180
    hour := hourOf now
    day_of_week := weekdayOf now }

/-- The forecast loop body, src/app.py lines 199-208.  `predict` embeds
`model.predict(current_features)[0]`; `none` is a raised exception, which in
the Python code escapes to the `except` at line 209 and leaves
`forecast_results` holding the steps appended so far — hence the recursion
returns the accumulated prefix and stops.  `i` is the loop index, `n` the
remaining iterations. -/
def forecastLoop (predict : FeatureVector → Option ℚ) (now : Time) :
    FeatureVector → ℕ → ℕ → List ForecastStep
  | _, _, 0 => []
  | f, i, n + 1 =>
    match predict f with
    | none => []
    | some raw =>
      let p := max 0 raw
      let ft := addHours (i + 1) now
      { hour := formatHHMM ft, aqi := round2 p } ::
        forecastLoop predict now
          { f with pm25 := p, hour := hourOf ft, day_of_week := weekdayOf ft }
          (i + 1) n

/-- The fallback loop, src/app.py lines 213-215: constant projection of
`pm25_value`, one step per future hour.  (The Python code re-reads
`datetime.now()` here; in this embedding the same instant is passed in.) -/
def fallbackSteps (now : Time) (pm25_value : ℚ) : ℕ → ℕ → List ForecastStep
  | _, 0 => []
  | i, n + 1 =>
    { hour := formatHHMM (addHours (i + 1) now), aqi := round2 pm25_value } ::
      fallbackSteps now pm25_value (i + 1) n

/-- Section 4 of `get_sensor_data`, src/app.py lines 184-215: run the model
rollout when a model is loaded (empty on a first-step failure, a prefix on a
later failure), then substitute the constant-projection fallback only when
`forecast_results` is empty. -/
def generateForecast (modelLoaded : Bool) (predict : FeatureVector → Option ℚ)
    (now : Time) (w : Weather) (pm25_value : ℚ) : List ForecastStep :=
  let forecast_results :=
    if modelLoaded then forecastLoop predict now (initialFeatures now w pm25_value) 0 6
    else []
  if forecast_results.isEmpty then fallbackSteps now pm25_value 0 6 else forecast_results

/-- `ground_data` of the response, src/app.py line 219. -/
structure GroundData where
  location : String
  value : ℚ
  level_info : AQILevel
  deriving DecidableEq

/-- Outcome of the WAQI fetch block, src/app.py lines 138-179: either a
successfully extracted PM2.5 reading with its station name, or any failure
(request error, bad status, missing pm25 key), which leaves the defaults
`pm25_value = 25.0`, `location_name = "Regional Estimate"`. -/
def resolveGround (waqi : Option (ℚ × String)) : ℚ × String :=
  match waqi with
  | some (v, name) => (v, name)
  | none => (25, "Regional Estimate")

/-- Response assembly, src/app.py lines 138-224: resolve the ground reading,
generate the forecast seeded with it, and build `ground_data` plus
`forecast_data`. -/
def buildResponse (modelLoaded : Bool) (predict : FeatureVector → Option ℚ)
    (now : Time) (w : Weather) (waqi : Option (ℚ × String)) :
    GroundData × List ForecastStep :=
  let pv := resolveGround waqi
  ({ location := pv.2, value := round2 pv.1, level_info := get_aqi_level (some pv.1) },
   generateForecast modelLoaded predict now w pv.1)

/-- One merged row of the training frame `df` (src/train_model.py lines 48-71)
after `df.dropna(subset=['pm25'])`: pm25 is present, the four weather columns
of the merge may still be missing, and hour / day_of_week are derived from
the date. -/
structure RawRow where
  pm25 : ℚ
  temperature_2m : Option ℚ
  relative_humidity_2m : Option ℚ
  wind_speed_10m : Option ℚ
  wind_direction_10m : Option ℚ
  hour : ℕ
  day_of_week : ℕ
  deriving DecidableEq

/-- `df['pm25_next_hour'] = df['pm25'].shift(-1)` (src/train_model.py line
72): each row is paired with the next row's pm25; the last row gets NaN
(`none`). -/
def addTarget : List RawRow → List (RawRow × Option ℚ)
  | [] => []
  | [r] => [(r, none)]
  | r :: r' :: rest => (r, some r'.pm25) :: addTarget (r' :: rest)

/-- A fully populated training sample (a row of `final_df`). -/
structure TrainRow where
  pm25 : ℚ
  temperature_2m : ℚ
  relative_humidity_2m : ℚ
  wind_speed_10m : ℚ
  wind_direction_10m : ℚ
  hour : ℕ
  day_of_week : ℕ
  pm25_next_hour : ℚ
  deriving DecidableEq

/-- Row retention test of the bare `df.dropna()` (src/train_model.py line
73): a row survives exactly when every column, weather and target included,
is present. -/
def completeRow : RawRow × Option ℚ → Option TrainRow
  | (r, t) =>
    match r.temperature_2m, r.relative_humidity_2m, r.wind_speed_10m,
        r.wind_direction_10m, t with
    | some a, some b, some c, some d, some tv =>
      some ⟨r.pm25, a, b, c, d, r.hour, r.day_of_week, tv⟩
    | _, _, _, _, _ => none

/-- `final_df = df.dropna()` (src/train_model.py lines 72-73): assign the
shifted target, then drop every row with any missing value. -/
def final_df (rows : List RawRow) : List TrainRow :=
  (addTarget rows).filterMap completeRow

/-- src/train_model.py lines 85-91: `sys.exit(1)` (no model produced) when
fewer than 100 samples remain, otherwise train on `final_df`. -/
def trainDataset (rows : List RawRow) : Option (List TrainRow) :=
  let final := final_df rows
  if final.length < 100 then none else some final

/-- Modelled from the spec, for comparison with `final_df`: the claim's
preparation step in its own words — the target is the shifted pm25 column
and only rows with a missing target (the last row) are dropped. -/
def specFinalDf (rows : List RawRow) : List (RawRow × ℚ) :=
  (addTarget rows).filterMap (fun rt => rt.2.map (fun t => (rt.1, t)))

/-- Every weather column of every row is populated. -/
def allWeatherPresent (rows : List RawRow) : Prop :=
  ∀ r ∈ rows, r.temperature_2m.isSome ∧ r.relative_humidity_2m.isSome ∧
    r.wind_speed_10m.isSome ∧ r.wind_direction_10m.isSome

/-- Loop-state sequence of the rollout for a total (never-raising) model:
`stateAt m now i f k` is `current_features` as the loop, entered at index
`i` with state `f`, begins iteration `i + k` — the mutation of src/app.py
lines 206-208 applied `k` times. -/
def stateAt (m : FeatureVector → ℚ) (now : Time) (i : ℕ) (f : FeatureVector) :
    ℕ → FeatureVector
  | 0 => f
  | k + 1 =>
    { stateAt m now i f k with
      pm25 := max 0 (m (stateAt m now i f k))
      hour := hourOf (addHours (i + k + 1) now)
      day_of_week := weekdayOf (addHours (i + k + 1) now) }

/-- A concrete weather record with all fields present. -/
def exWeather : Weather := ⟨some 20, some 50, some 3, some 90⟩

/-- A concrete feature vector for instantiating universal theorems. -/
def exFeatures : FeatureVector := ⟨10, 18, 60, 5, 180, 0, 0⟩

/-- Two training rows, the first with a missing temperature reading. -/
def exRowsGap : List RawRow :=
  [⟨10, none, some 60, some 5, some 180, 0, 0⟩,
   ⟨11, some 18, some 60, some 5, some 180, 1, 0⟩]

/-- Two fully populated training rows. -/
def exRowsFull : List RawRow :=
  [⟨10, some 18, some 60, some 5, some 180, 0, 0⟩,
   ⟨11, some 19, some 61, some 6, some 181, 1, 0⟩]

/-! ### Helper lemmas -/

/-- Entering the loop one iteration later with the once-advanced state
traverses the same state sequence, shifted by one. -/
lemma stateAt_shift (m : FeatureVector → ℚ) (now : Time) (i : ℕ) (f : FeatureVector)
    (g : FeatureVector) (hg : g = stateAt m now i f 1) :
    ∀ k, stateAt m now (i + 1) g k = stateAt m now i f (k + 1)
  | 0 => hg
  | k + 1 => by
    have ih := stateAt_shift m now i f g hg k
    have hidx : i + 1 + k + 1 = i + (k + 1) + 1 := by omega
    simp only [stateAt]
    rw [ih, hidx]
    simp only [stateAt]

/-- Closed form of the rollout for a total model: the loop emits one step
per iteration, timestamped from the loop index, whose recorded value is the
2-decimal rounding of the pm25 fed into the following state. -/
lemma forecastLoop_total_eq (m : FeatureVector → ℚ) (now : Time) :
    ∀ (n i : ℕ) (f : FeatureVector),
      forecastLoop (fun x => some (m x)) now f i n =
        (List.range n).map (fun k =>
          { hour := formatHHMM (addHours (i + k + 1) now),
            aqi := round2 ((stateAt m now i f (k + 1)).pm25) })
  | 0, i, f => by simp [forecastLoop]
  | n + 1, i, f => by
    rw [List.range_succ_eq_map]
    simp only [forecastLoop, List.map_cons, List.map_map]
    refine congrArg₂ _ rfl ?_
    rw [forecastLoop_total_eq m now n (i + 1)]
    refine List.map_congr_left fun k _ => ?_
    have hidx : i + 1 + k + 1 = i + (k + 1) + 1 := by omega
    simp only [Function.comp_apply]
    rw [stateAt_shift m now i f, hidx]
    exact rfl

/-- `round(·, 2)` preserves non-negativity. -/
lemma round2_nonneg {q : ℚ} (hq : 0 ≤ q) : 0 ≤ round2 q := by
  have hfl : (0 : ℤ) ≤ ⌊q * 100⌋ := Int.floor_nonneg.mpr (by positivity)
  have hr : (0 : ℤ) ≤ roundHalfEven (q * 100) := by
    unfold roundHalfEven
    split
    · exact hfl
    · split
      · omega
      · split <;> omega
  unfold round2
  positivity

/-- Every step the loop emits is timestamped from the loop index at which
it was emitted, regardless of whether (or when) the model raises. -/
lemma forecastLoop_get?_hour (predict : FeatureVector → Option ℚ) (now : Time) :
    ∀ (n i : ℕ) (f : FeatureVector) (k : ℕ) (s : ForecastStep),
      (forecastLoop predict now f i n)[k]? = some s →
      s.hour = formatHHMM (addHours (i + k + 1) now)
  | 0, i, f, k, s => by simp [forecastLoop]
  | n + 1, i, f, k, s => by
    intro hs
    cases hp : predict f with
    | none =>
      rw [forecastLoop, hp] at hs
      simp at hs
    | some raw =>
      rw [forecastLoop, hp] at hs
      cases k with
      | zero =>
        simp only [List.getElem?_cons_zero, Option.some.injEq] at hs
        rw [← hs]
      | succ k =>
        simp only [List.getElem?_cons_succ] at hs
        have := forecastLoop_get?_hour predict now n (i + 1) _ k s hs
        rw [this]
        have hidx : i + 1 + k + 1 = i + (k + 1) + 1 := by omega
        rw [hidx]

/-- Every fallback step is timestamped from the loop index at which it was
emitted. -/
lemma fallbackSteps_get?_hour (now : Time) (q : ℚ) :
    ∀ (n i k : ℕ) (s : ForecastStep),
      (fallbackSteps now q i n)[k]? = some s →
      s.hour = formatHHMM (addHours (i + k + 1) now)
  | 0, i, k, s => by simp [fallbackSteps]
  | n + 1, i, k, s => by
    intro hs
    rw [fallbackSteps] at hs
    cases k with
    | zero =>
      simp only [List.getElem?_cons_zero, Option.some.injEq] at hs
      rw [← hs]
    | succ k =>
      simp only [List.getElem?_cons_succ] at hs
      have := fallbackSteps_get?_hour now q n (i + 1) k s hs
      rw [this]
      have hidx : i + 1 + k + 1 = i + (k + 1) + 1 := by omega
      rw [hidx]

/-- A row whose target is missing never survives `df.dropna()`. -/
lemma completeRow_none (r : RawRow) : completeRow (r, none) = none := by
  obtain ⟨p, t, rh, ws, wd, hh, dw⟩ := r
  cases t <;> cases rh <;> cases ws <;> cases wd <;> rfl

/-! ### Claim theorems -/

/-- C2: autoregressive feedback with floor-before-feedback.  For every total
model, initial FeatureVector and horizon, the rollout emits at step k the
2-decimal rounding of the pm25 value fed into the next loop state, and that
fed-back pm25 equals the raw prediction on the previous state floored at 0.
For the stub model predict_one(f) = f.pm25 + 1 with initial pm25 = 10,
hour = 0, day_of_week = 0 and horizon 3, the rollout yields PM2.5 values
[11, 12, 13] at hours [1, 2, 3]. -/
theorem c2_autoregressive_feedback :
    (∀ (m : FeatureVector → ℚ) (now : Time) (f : FeatureVector) (n : ℕ),
      (forecastLoop (fun x => some (m x)) now f 0 n =
        (List.range n).map (fun k =>
          { hour := formatHHMM (addHours (k + 1) now)
            aqi := round2 ((stateAt m now 0 f (k + 1)).pm25) })) ∧
      ∀ k, (stateAt m now 0 f (k + 1)).pm25 = max 0 (m (stateAt m now 0 f k))) ∧
    (forecastLoop (fun f => some (f.pm25 + 1)) ⟨0, 0⟩ exFeatures 0 3).map
        (fun s => (s.hour.1, s.aqi)) = [(1, 11), (2, 12), (3, 13)] := by
  constructor
  · intro m now f n
    refine ⟨?_, fun k => rfl⟩
    have h := forecastLoop_total_eq m now n 0 f
    simpa using h
  · norm_num [forecastLoop, exFeatures, round2, roundHalfEven, formatHHMM,
      addHours, hourOf, weekdayOf]

/-- C3: every `aqi` value recorded by the forecast loop is non-negative,
for every model (failing or not, negative-valued or not), every starting
state and every horizon: the raw prediction is clamped with `max 0` before
rounding and recording. -/
theorem c3_forecast_nonneg (predict : FeatureVector → Option ℚ) (now : Time) :
    ∀ (n i : ℕ) (f : FeatureVector), ∀ s ∈ forecastLoop predict now f i n, 0 ≤ s.aqi
  | 0, i, f => by simp [forecastLoop]
  | n + 1, i, f => by
    intro s hs
    cases hp : predict f with
    | none =>
      simp only [forecastLoop, hp] at hs
      exact absurd hs (List.not_mem_nil s)
    | some raw =>
      simp only [forecastLoop, hp] at hs
      rcases List.mem_cons.mp hs with rfl | h
      · exact round2_nonneg (le_max_left 0 raw)
      · exact c3_forecast_nonneg predict now n (i + 1) _ s h

/-- Witness for C3 at a concrete input: a model that predicts -5 still
yields a non-negative recorded value. -/
theorem c3_forecast_nonneg_witness :
    0 ≤ (ForecastStep.mk (formatHHMM (addHours 1 (⟨5, 0⟩ : Time)))
          (round2 (max 0 (-5)))).aqi :=
  c3_forecast_nonneg (fun _ => some (-5)) ⟨5, 0⟩ 1 0 exFeatures _ (List.Mem.head _)

/-- C4: with no model loaded, the system still produces exactly 6 steps,
each valued at the current PM2.5 rounded to 2 decimals, with timestamps
incrementing by one hour per step. -/
theorem c4_no_model_fallback (p : FeatureVector → Option ℚ) (now : Time)
    (w : Weather) (q : ℚ) :
    generateForecast false p now w q =
      [⟨formatHHMM (addHours 1 now), round2 q⟩, ⟨formatHHMM (addHours 2 now), round2 q⟩,
       ⟨formatHHMM (addHours 3 now), round2 q⟩, ⟨formatHHMM (addHours 4 now), round2 q⟩,
       ⟨formatHHMM (addHours 5 now), round2 q⟩, ⟨formatHHMM (addHours 6 now), round2 q⟩] :=
  rfl

/-- C5: frame property of the rollout state: only pm25, hour and
day_of_week are mutated between iterations; the four weather fields of the
working FeatureVector keep their initial values at every step. -/
theorem c5_weather_fields_constant (m : FeatureVector → ℚ) (now : Time) (i : ℕ)
    (f : FeatureVector) : ∀ k,
    (stateAt m now i f k).temperature_2m = f.temperature_2m ∧
    (stateAt m now i f k).relative_humidity_2m = f.relative_humidity_2m ∧
    (stateAt m now i f k).wind_speed_10m = f.wind_speed_10m ∧
    (stateAt m now i f k).wind_direction_10m = f.wind_direction_10m
  | 0 => ⟨rfl, rfl, rfl, rfl⟩
  | k + 1 => c5_weather_fields_constant m now i f k

/-- C9: when the WAQI reading is unavailable, the default 25.0 labelled
"Regional Estimate" is what is reported, classified (Moderate), seeded into
the rollout features, and projected constantly by the no-model fallback. -/
theorem c9_waqi_default (ml : Bool) (p : FeatureVector → Option ℚ) (now : Time)
    (w : Weather) :
    buildResponse ml p now w none =
      ({ location := "Regional Estimate", value := 25,
         level_info := { level := "Moderate", color := "#ffff00" } },
       generateForecast ml p now w 25) ∧
    (initialFeatures now w 25).pm25 = 25 ∧
    (generateForecast false p now w 25).map ForecastStep.aqi =
      [25, 25, 25, 25, 25, 25] := by
  have h25 : round2 25 = 25 := by norm_num [round2, roundHalfEven]
  refine ⟨?_, rfl, ?_⟩
  · simp only [buildResponse, resolveGround]
    refine Prod.ext ?_ rfl
    simp only [h25]
    norm_num [get_aqi_level]
  · simp [generateForecast, fallbackSteps, h25]

/-- C1: the full-failure contract is not what the code implements.  With a
loaded model whose single-step prediction succeeds at the first step and
raises at the second (here: raising whenever the feature hour is not 5,
starting at 05:30), the response carries a 1-step partial forecast: the
fallback of src/app.py line 212 fires only when `forecast_results` is
empty, so a mid-rollout failure returns fewer than 6 steps. -/
theorem c1_partial_forecast_returned :
    (generateForecast true (fun f => if f.hour = 5 then some 5 else none)
        ⟨5, 30⟩ exWeather 10).length = 1 ∧ (1 : ℕ) ≠ 6 :=
  ⟨rfl, by decide⟩

/-- C6: the AQI classifier is a pure total function on an optional PM2.5
value with the claimed boundary behaviour and fixed colors: the five quoted
evaluations, then the full breakpoint characterization. -/
theorem c6_classifier_boundaries :
    get_aqi_level none = ⟨"Unknown", "#aaaaaa"⟩ ∧
    get_aqi_level (some (-1)) = ⟨"Unknown", "#aaaaaa"⟩ ∧
    get_aqi_level (some 12) = ⟨"Good", "#00e400"⟩ ∧
    get_aqi_level (some 12.1) = ⟨"Moderate", "#ffff00"⟩ ∧
    get_aqi_level (some 300) = ⟨"Hazardous", "#7e0023"⟩ ∧
    (∀ q : ℚ, q < 0 → get_aqi_level (some q) = ⟨"Unknown", "#aaaaaa"⟩) ∧
    (∀ q : ℚ, 0 ≤ q → q ≤ 12 → get_aqi_level (some q) = ⟨"Good", "#00e400"⟩) ∧
    (∀ q : ℚ, 12 < q → q ≤ 35.4 → get_aqi_level (some q) = ⟨"Moderate", "#ffff00"⟩) ∧
    (∀ q : ℚ, 35.4 < q → q ≤ 55.4 →
      get_aqi_level (some q) = ⟨"Unhealthy for Sensitive Groups", "#ff7e00"⟩) ∧
    (∀ q : ℚ, 55.4 < q → q ≤ 150.4 →
      get_aqi_level (some q) = ⟨"Unhealthy", "#ff0000"⟩) ∧
    (∀ q : ℚ, 150.4 < q → q ≤ 250.4 →
      get_aqi_level (some q) = ⟨"Very Unhealthy", "#8f3f97"⟩) ∧
    (∀ q : ℚ, 250.4 < q → get_aqi_level (some q) = ⟨"Hazardous", "#7e0023"⟩) := by
  refine ⟨rfl, by norm_num [get_aqi_level], by norm_num [get_aqi_level],
    by norm_num [get_aqi_level], by norm_num [get_aqi_level],
    ?_, ?_, ?_, ?_, ?_, ?_, ?_⟩
  · intro q h
    simp only [get_aqi_level]
    rw [if_pos h]
  · intro q h0 h1
    simp only [get_aqi_level]
    rw [if_neg (by linarith), if_pos h1]
  · intro q h0 h1
    simp only [get_aqi_level]
    rw [if_neg (by linarith), if_neg (by linarith), if_pos h1]
  · intro q h0 h1
    simp only [get_aqi_level]
    rw [if_neg (by linarith), if_neg (by linarith), if_neg (by linarith), if_pos h1]
  · intro q h0 h1
    simp only [get_aqi_level]
    rw [if_neg (by linarith), if_neg (by linarith), if_neg (by linarith),
      if_neg (by linarith), if_pos h1]
  · intro q h0 h1
    simp only [get_aqi_level]
    rw [if_neg (by linarith), if_neg (by linarith), if_neg (by linarith),
      if_neg (by linarith), if_neg (by linarith), if_pos h1]
  · intro q h0
    simp only [get_aqi_level]
    rw [if_neg (by linarith), if_neg (by linarith), if_neg (by linarith),
      if_neg (by linarith), if_neg (by linarith), if_neg (by linarith)]

/-- Witness for C6 at a concrete input above the last breakpoint. -/
theorem c6_classifier_boundaries_witness :
    get_aqi_level (some 500) = ⟨"Hazardous", "#7e0023"⟩ :=
  c6_classifier_boundaries.2.2.2.2.2.2.2.2.2.2.2 500 (by norm_num)

/-- C7: whichever path produced it (model rollout, possibly cut short, or
fallback), the step at position k of the emitted forecast carries the
wall-clock timestamp now + (k+1) hours formatted as HH:MM — so the
underlying timestamps are strictly increasing by exactly one hour. -/
theorem c7_timestamps (ml : Bool) (predict : FeatureVector → Option ℚ)
    (now : Time) (w : Weather) (q : ℚ) (k : ℕ) (s : ForecastStep)
    (h : (generateForecast ml predict now w q)[k]? = some s) :
    s.hour = formatHHMM (addHours (k + 1) now) := by
  cases ml with
  | false =>
    simp only [generateForecast, Bool.false_eq_true, ite_false, List.isEmpty_nil,
      ite_true] at h
    have := fallbackSteps_get?_hour now q 6 0 k s h
    simpa using this
  | true =>
    simp only [generateForecast, ite_true] at h
    split at h
    · have := fallbackSteps_get?_hour now q 6 0 k s h
      simpa using this
    · have := forecastLoop_get?_hour predict now 6 0 _ k s h
      simpa using this

/-- Witness for C7: the third fallback step of a no-model forecast started
at 00:00 is stamped 03:00. -/
theorem c7_timestamps_witness :
    (ForecastStep.mk (formatHHMM (addHours 3 (⟨0, 0⟩ : Time))) (round2 25)).hour =
      formatHHMM (addHours (2 + 1) (⟨0, 0⟩ : Time)) :=
  c7_timestamps false (fun _ => none) ⟨0, 0⟩ ⟨none, none, none, none⟩ 25 2 _ rfl

/-- C10: rounding applies only to the emitted record, never to the feedback
state: the recorded value at position k is the 2-decimal rounding of the
pm25 fed into the next state, and that fed-back pm25 is the unrounded
(clamped) prediction. -/
theorem c10_round_output_only (m : FeatureVector → ℚ) (now : Time)
    (f : FeatureVector) (n k : ℕ) (h : k < n) :
    (forecastLoop (fun x => some (m x)) now f 0 n)[k]? =
      some ⟨formatHHMM (addHours (k + 1) now),
            round2 ((stateAt m now 0 f (k + 1)).pm25)⟩ ∧
    (stateAt m now 0 f (k + 1)).pm25 = max 0 (m (stateAt m now 0 f k)) := by
  refine ⟨?_, rfl⟩
  rw [forecastLoop_total_eq, List.getElem?_map, List.getElem?_range h]
  simp

/-- Witness for C10 at the first step of a one-step rollout of the stub
model. -/
theorem c10_round_output_only_witness :
    ((forecastLoop (fun x => some (x.pm25 + 1)) ⟨0, 0⟩ exFeatures 0 1)[0]? =
      some ⟨formatHHMM (addHours 1 ⟨0, 0⟩),
            round2 ((stateAt (fun x => x.pm25 + 1) ⟨0, 0⟩ 0 exFeatures 1).pm25)⟩ ∧
     (stateAt (fun x => x.pm25 + 1) ⟨0, 0⟩ 0 exFeatures 1).pm25 =
       max 0 ((stateAt (fun x => x.pm25 + 1) ⟨0, 0⟩ 0 exFeatures 0).pm25 + 1)) :=
  c10_round_output_only (fun x => x.pm25 + 1) ⟨0, 0⟩ exFeatures 1 0 (by norm_num)

/-- C8 counterexample: `df.dropna()` does not drop only the missing-target
last row.  On a two-row series whose first row lacks a temperature reading,
the claimed preparation keeps 1 row but the code keeps 0. -/
theorem c8_dropna_counterexample :
    (specFinalDf exRowsGap).length = 1 ∧ (final_df exRowsGap).length = 0 :=
  ⟨rfl, rfl⟩

/-- C8 amended: the target pm25_next_hour is the pm25 column shifted one
row forward, and `df.dropna()` drops every row with any missing value — when
all weather columns are populated this is exactly the last row; if fewer
than 100 rows remain, training aborts without producing a model. -/
theorem c8_shift_and_dropna (rows : List RawRow) :
    (allWeatherPresent rows →
      (final_df rows).map TrainRow.pm25_next_hour = rows.tail.map RawRow.pm25 ∧
      (final_df rows).map TrainRow.pm25 = rows.dropLast.map RawRow.pm25) ∧
    ((final_df rows).length < 100 → trainDataset rows = none) := by
  constructor
  · induction rows with
    | nil => intro _; simp [final_df, addTarget]
    | cons r rest ih =>
      intro hall
      cases rest with
      | nil => simp [final_df, addTarget, completeRow_none]
      | cons r' rest' =>
        obtain ⟨⟨a, ha⟩, ⟨b, hb⟩, ⟨c, hc⟩, ⟨d, hd⟩⟩ :
            (∃ a, r.temperature_2m = some a) ∧ (∃ b, r.relative_humidity_2m = some b) ∧
            (∃ c, r.wind_speed_10m = some c) ∧ (∃ d, r.wind_direction_10m = some d) := by
          have hr := hall r (List.mem_cons_self r _)
          exact ⟨Option.isSome_iff_exists.mp hr.1, Option.isSome_iff_exists.mp hr.2.1,
            Option.isSome_iff_exists.mp hr.2.2.1, Option.isSome_iff_exists.mp hr.2.2.2⟩
        have hrest : allWeatherPresent (r' :: rest') :=
          fun x hx => hall x (List.mem_cons_of_mem r hx)
        obtain ⟨h1, h2⟩ := ih hrest
        constructor
        · simp [final_df, addTarget, completeRow, ha, hb, hc, hd] at h1 ⊢
          exact h1
        · simp [final_df, addTarget, completeRow, ha, hb, hc, hd] at h2 ⊢
          exact h2
  · intro h
    simp [trainDataset, h]

/-- Witness for C8 on a fully populated two-row series: one training row
survives (target = second pm25, feature pm25 = first pm25) and, being fewer
than 100 rows, training aborts. -/
theorem c8_shift_and_dropna_witness :
    ((final_df exRowsFull).map TrainRow.pm25_next_hour =
        exRowsFull.tail.map RawRow.pm25 ∧
      (final_df exRowsFull).map TrainRow.pm25 =
        exRowsFull.dropLast.map RawRow.pm25) ∧
    trainDataset exRowsFull = none :=
  ⟨(c8_shift_and_dropna exRowsFull).1 (by
      intro r hr
      simp only [exRowsFull, List.mem_cons, List.mem_singleton] at hr
      rcases hr with rfl | rfl | hr
      · exact ⟨rfl, rfl, rfl, rfl⟩
      · exact ⟨rfl, rfl, rfl, rfl⟩
      · exact absurd hr (List.not_mem_nil r)),
   (c8_shift_and_dropna exRowsFull).2 (by show (1 : ℕ) < 100; norm_num)⟩

end AqiForecaster
